import Mathlib

/-!
Shallow embedding of src/app.py (SQL Humanizer): the translation client
(translate_sql), the email-lookup entitlement check (email_has_license),
payment-link resolution with static fallback (get_payment_link_for_email
plus the sidebar fallback), the OAuth identity exchange
(_exchange_code_for_user plus the callback handling in main), the
sign-out action, and the per-session free-tier gate around the
translate button (main, lines 303-340).

External HTTP services (the Gemini generation endpoint, the license
server, the Google token and profile endpoints) are modelled as explicit
oracle values passed in: each oracle describes what the one outbound
call of the function would observe (transport failure, or a status code
with a parsed JSON body). Python strings are Lean strings; Python None
for an optional string is Option.none; Python truthiness of a string is
the test against the empty string.
-/

namespace SqlHumanizer

/-- Python str.strip: drop leading and trailing whitespace. Defined over
the character list so that the kernel can evaluate it (String.trim is
semantically the same but does not reduce). -/
def pyStrip (s : String) : String :=
  String.mk (((s.data.dropWhile Char.isWhitespace).reverse.dropWhile Char.isWhitespace).reverse)

/-- Python str.lower, character by character. -/
def pyLower (s : String) : String :=
  String.mk (s.data.map Char.toLower)

/-- Python substring membership test (pat in s) over character lists. -/
def strContainsChars : List Char → List Char → Bool
  | _, [] => true
  | [], _ :: _ => false
  | c :: cs, p :: ps =>
    (List.isPrefixOf (p :: ps) (c :: cs)) || strContainsChars cs (p :: ps)

/-- Python substring membership test (pat in s) on strings. -/
def strContains (s pat : String) : Bool :=
  strContainsChars s.data pat.data

/-- A parsed JSON value as seen through the dictionary lookups the app
performs. Nested containers are collapsed to jother carrying only their
Python truthiness, since the app never looks inside them. -/
inductive JVal where
  | jnull
  | jbool (b : Bool)
  | jnum (n : Int)
  | jstr (s : String)
  | jother (truthy : Bool)
deriving Repr, DecidableEq

/-- Python truthiness of a JSON value. -/
def JVal.isTruthy : JVal → Bool
  | JVal.jnull => false
  | JVal.jbool b => b
  | JVal.jnum n => n != 0
  | JVal.jstr s => s != ""
  | JVal.jother t => t

/-- Result of json.loads on a response body: either it raises or yields
something without dictionary access (malformed: the except branch runs),
or a dictionary given by its field list. -/
inductive JsonBody where
  | malformed
  | obj (fields : List (String × JVal))
deriving Repr, DecidableEq

/-- Python dict.get: the value under a key, none when absent. -/
def getField (fields : List (String × JVal)) (key : String) : Option JVal :=
  (fields.find? (fun p => p.1 == key)).map (fun p => p.2)

/-- Truthiness of a dict.get result (missing key is None, hence falsy). -/
def jTruthy : Option JVal → Bool
  | none => false
  | some v => v.isTruthy

/-- What one outbound HTTP call observes: any exception during the
request (transport error, timeout, a raised HTTPError), or a response
with a status code and a parsed body. -/
inductive HttpReply where
  | failure
  | response (status : Nat) (body : JsonBody)
deriving Repr, DecidableEq

/-- Result of evaluating the Python idiom ((d.get(k) or "").strip() or
None): a truthy non-string value makes .strip() raise AttributeError
(the enclosing except turns that into the failure return); every falsy
value passes through "" and becomes None; a string is stripped and an
empty result becomes None. -/
inductive PyStr where
  | val (v : Option String)
  | raised
deriving Repr, DecidableEq

/-- Evaluate ((d.get(k) or "").strip() or None) on a dict.get result. -/
def pyStrFieldOrNone : Option JVal → PyStr
  | some (JVal.jstr s) => PyStr.val (if pyStrip s = "" then none else some (pyStrip s))
  | some v => if v.isTruthy then PyStr.raised else PyStr.val none
  | none => PyStr.val none

/-- email_has_license (src/app.py lines 33-50): true only when email and
the configured license server URL are both non-empty, the GET request
returns status 200 with a JSON object whose valid field is the boolean
true. Every failure path (empty email, unconfigured server, transport
error, non-200 status, malformed body, wrong field value) yields false. -/
def email_has_license (licenseServerUrl email : String) (reply : HttpReply) : Bool :=
  if email = "" ∨ licenseServerUrl = "" then false
  else
    match reply with
    | HttpReply.failure => false
    | HttpReply.response status body =>
      if status ≠ 200 then false
      else
        match body with
        | JsonBody.malformed => false
        | JsonBody.obj fields => getField fields "valid" == some (JVal.jbool true)

/-- get_payment_link_for_email (src/app.py lines 53-72): POST to the
license server expecting a JSON object with a url string; returns the
stripped URL, or none on empty email, unconfigured server, transport
error, non-200 status, malformed body, or a missing, non-string, or
blank url field (a truthy non-string url makes .strip() raise, which the
except branch also turns into none). -/
def get_payment_link_for_email (licenseServerUrl email : String) (reply : HttpReply) :
    Option String :=
  if email = "" ∨ licenseServerUrl = "" then none
  else
    match reply with
    | HttpReply.failure => none
    | HttpReply.response status body =>
      if status ≠ 200 then none
      else
        match body with
        | JsonBody.malformed => none
        | JsonBody.obj fields =>
          match getField fields "url" with
          | some (JVal.jstr s) => if pyStrip s = "" then none else some (pyStrip s)
          | _ => none

/-- The sidebar upgrade-URL computation (src/app.py lines 273-277):
try the license server when a user email and a server URL are present,
and fall back to the static Razorpay URL whenever that attempt yields
nothing. -/
def resolveUpgradeUrl (razorpayUpgradeUrl licenseServerUrl : String)
    (userEmail : Option String) (reply : HttpReply) : String :=
  let fromServer : Option String :=
    if userEmail.getD "" ≠ "" ∧ licenseServerUrl ≠ "" then
      get_payment_link_for_email licenseServerUrl (userEmail.getD "") reply
    else none
  match fromServer with
  | some u => if u = "" then razorpayUpgradeUrl else u
  | none => razorpayUpgradeUrl

/-- What the Gemini call observes: a response object whose text
attribute is the given string (None text is modelled as the empty
string, both being falsy in the guard), or an exception with message
str(e). -/
inductive GenResult where
  | resp (text : String)
  | exc (msg : String)
deriving Repr, DecidableEq

/-- The fixed instruction prompt built by translate_sql. -/
def geminiPrompt (query : String) : String :=
  "Explain this SQL query to a non-technical manager in one simple sentence. " ++
  "Be clear and concise. Reply with only that sentence, no code or extra formatting.\n\n" ++
  pyStrip query

/-- translate_sql (src/app.py lines 75-102). Returns the pair
(result_text, error_message) exactly as the source does: precondition
failures for a blank query or a blank API key, the stripped service text
on a truthy text, the empty-response message on a falsy text, and the
classified error message when the call raises. -/
def translate_sql (query apiKey : String) (svc : GenResult) :
    Option String × Option String :=
  if pyStrip query = "" then (none, some "Please enter an SQL query.")
  else if pyStrip apiKey = "" then
    (none, some "Gemini API key is missing. Add GEMINI_API_KEY to your .env file.")
  else
    match svc with
    | GenResult.resp t =>
      if t ≠ "" then (some (pyStrip t), none)
      else (none, some "The model returned an empty response.")
    | GenResult.exc m =>
      let err := if pyStrip m = "" then "Unknown error" else pyStrip m
      if strContains err "API_KEY_INVALID" = true ∨ strContains (pyLower err) "invalid" = true then
        (none, some "Invalid or missing Gemini API key. Check your .env (GEMINI_API_KEY).")
      else (none, some ("Translation failed: " ++ err))

/-- The per-session state kept in st.session_state (src/app.py lines
156-161). -/
structure Session where
  free_queries_used : Nat
  user_email : Option String
  user_name : Option String
deriving Repr, DecidableEq

/-- A fresh session (first interaction): counter zero, no identity. -/
def initSession : Session :=
  { free_queries_used := 0, user_email := none, user_name := none }

/-- Python truthiness of an optional string (None and "" are falsy). -/
def optStrFalsy : Option String → Bool
  | none => true
  | some s => s == ""

/-- The free-tier quota FREE_TIER_MAX_QUERIES (src/app.py line 30). -/
def FREE_TIER_MAX_QUERIES : Nat := 1

/-- The sidebar entitlement computation (src/app.py line 264): is_pro is
email_has_license on the session email when one is present, else false. -/
def computeIsPro (licenseServerUrl : String) (userEmail : Option String)
    (reply : HttpReply) : Bool :=
  if optStrFalsy userEmail then false
  else email_has_license licenseServerUrl (userEmail.getD "") reply

/-- _exchange_code_for_user (src/app.py lines 118-151): two sequential
calls, token exchange then profile fetch; every failure path returns
(none, none); a 200 profile yields the stripped email and name fields,
each None when blank or absent (a field access that raises collapses to
(none, none) through the except branch). -/
def exchange_code_for_user (clientId clientSecret redirectUri : String)
    (env_tokenReply env_profileReply : HttpReply) : Option String × Option String :=
  if clientId = "" ∨ clientSecret = "" ∨ redirectUri = "" then (none, none)
  else
    match env_tokenReply with
    | HttpReply.failure => (none, none)
    | HttpReply.response status body =>
      if status ≠ 200 then (none, none)
      else
        match body with
        | JsonBody.malformed => (none, none)
        | JsonBody.obj tfields =>
          if jTruthy (getField tfields "access_token") = false then (none, none)
          else
            match env_profileReply with
            | HttpReply.failure => (none, none)
            | HttpReply.response pstatus pbody =>
              if pstatus ≠ 200 then (none, none)
              else
                match pbody with
                | JsonBody.malformed => (none, none)
                | JsonBody.obj pfields =>
                  match pyStrFieldOrNone (getField pfields "email"),
                        pyStrFieldOrNone (getField pfields "name") with
                  | PyStr.val e, PyStr.val n => (e, n)
                  | _, _ => (none, none)

/-- The OAuth callback handling in main (src/app.py lines 172-181): when
a code is present, no identity is cached yet, and client id and redirect
URI are configured, run the exchange; on a usable email, cache it and
cache the name with fallback to the email (name or email); otherwise
leave the session unchanged. -/
def handleOAuthCallback (clientId clientSecret redirectUri : String)
    (s : Session) (code : String)
    (env_tokenReply env_profileReply : HttpReply) : Session :=
  if code ≠ "" ∧ optStrFalsy s.user_email = true ∧ clientId ≠ "" ∧ redirectUri ≠ "" then
    match exchange_code_for_user clientId clientSecret redirectUri env_tokenReply env_profileReply with
    | (some email, name) =>
      if email = "" then s
      else
        { s with
          user_email := some email,
          user_name := some (match name with
            | some n => if n = "" then email else n
            | none => email) }
    | (none, _) => s
  else s

/-- The sign-out button (src/app.py lines 257-260): clear the cached
identity fields. -/
def signOut (s : Session) : Session :=
  { s with user_email := none, user_name := none }

/-- What one click of the translate button produces. -/
inductive StepOutcome where
  | blocked
  | noAction
  | translated (result : Option String) (error : Option String) (limitNotice : Bool)
deriving Repr, DecidableEq

/-- The session after the free-query charge (src/app.py lines 321-322):
a non-pro session is charged one more free query, a pro session is not. -/
def chargedSession (isPro : Bool) (s : Session) : Session :=
  if isPro = false then { s with free_queries_used := s.free_queries_used + 1 } else s

/-- One click of the translate button (src/app.py lines 303-340): the
gate blocks a non-pro session already at quota before anything else;
otherwise a falsy (empty) query does nothing; otherwise the non-pro
counter is charged, translate_sql runs, and the limit notice is shown
when the (updated) counter has reached quota for a non-pro session. -/
def handleTranslateClick (isPro : Bool) (s : Session) (sqlQuery apiKey : String)
    (svc : GenResult) : StepOutcome × Session :=
  if isPro = false ∧ FREE_TIER_MAX_QUERIES ≤ s.free_queries_used then
    (StepOutcome.blocked, s)
  else if sqlQuery = "" then
    (StepOutcome.noAction, s)
  else
    (StepOutcome.translated
      (translate_sql sqlQuery apiKey svc).1
      (translate_sql sqlQuery apiKey svc).2
      (decide (isPro = false ∧ FREE_TIER_MAX_QUERIES ≤ (chargedSession isPro s).free_queries_used)),
     chargedSession isPro s)

/-- Modelled from the spec: the static license key strategy
(StaticKeyStrategy of spec section 4.2) has no implementation in
src/app.py, which ships only the email-lookup variant; the spec defines
isEntitled(candidateKey) as candidateKey.trim() equal to the configured
constant, pure and free of input/output effects, with DEMO-KEY-2026 as
the example constant. -/
def staticKeyIsEntitled (configuredConstant candidateKey : String) : Bool :=
  pyStrip candidateKey == configuredConstant

/-- Modelled from the spec: the example configured static license
constant used by the spec test cases. -/
def DEMO_LICENSE_KEY : String := "DEMO-KEY-2026"

/-! ## Helper lemmas -/

/-- The OAuth callback never touches the free-query counter. -/
theorem handleOAuthCallback_free (cid csec ruri : String) (s : Session) (code : String)
    (tr pr : HttpReply) :
    (handleOAuthCallback cid csec ruri s code tr pr).free_queries_used = s.free_queries_used := by
  unfold handleOAuthCallback
  split
  · rcases hx : exchange_code_for_user cid csec ruri tr pr with ⟨e, n⟩
    cases e
    · rfl
    · dsimp only
      split <;> rfl
  · rfl

/-- A translate click leaves the session unchanged or charges it. -/
theorem handleTranslateClick_snd (isPro : Bool) (s : Session) (q k : String)
    (svc : GenResult) :
    (handleTranslateClick isPro s q k svc).2 = s ∨
    (handleTranslateClick isPro s q k svc).2 = chargedSession isPro s := by
  unfold handleTranslateClick
  split
  · exact Or.inl rfl
  · split
    · exact Or.inl rfl
    · exact Or.inr rfl

/-- Charging keeps the counter or adds one, the latter only when not pro. -/
theorem chargedSession_free (isPro : Bool) (s : Session) :
    (chargedSession isPro s).free_queries_used = s.free_queries_used ∨
    (isPro = false ∧
      (chargedSession isPro s).free_queries_used = s.free_queries_used + 1) := by
  unfold chargedSession
  split
  · next h => exact Or.inr ⟨h, rfl⟩
  · exact Or.inl rfl

/-- A field read through the or-empty-strip-or-None idiom that produces
an actual string produces a non-empty one. -/
theorem pyStrFieldOrNone_val_some (v : Option JVal) (e : String)
    (h : pyStrFieldOrNone v = PyStr.val (some e)) : e ≠ "" := by
  cases v with
  | none => simp [pyStrFieldOrNone] at h
  | some jv =>
    cases jv with
    | jstr s =>
      simp only [pyStrFieldOrNone] at h
      split at h
      · simp at h
      · next hs =>
        simp only [PyStr.val.injEq, Option.some.injEq] at h
        exact h ▸ hs
    | jnull => simp [pyStrFieldOrNone, JVal.isTruthy] at h
    | jbool b =>
      simp only [pyStrFieldOrNone] at h
      split at h <;> simp at h
    | jnum n =>
      simp only [pyStrFieldOrNone] at h
      split at h <;> simp at h
    | jother t =>
      simp only [pyStrFieldOrNone] at h
      split at h <;> simp at h

/-- A successful code exchange never yields the empty email. -/
theorem exchange_fst_some_ne_empty (cid csec ruri : String) (tr pr : HttpReply)
    (e : String)
    (h : (exchange_code_for_user cid csec ruri tr pr).1 = some e) : e ≠ "" := by
  unfold exchange_code_for_user at h
  repeat' split at h
  all_goals dsimp only at h
  all_goals try exact Option.noConfusion h
  rename_i e0 n0 heq1 heq2
  subst h
  exact pyStrFieldOrNone_val_some _ e heq1

/-! ## Claim theorems -/

/-- C1: with the quota fixed at 1, the first translate click of a
non-entitled session with a non-empty query runs the translation client
(whatever outcome the client produces) and raises the counter from 0 to
1; a second click of the same non-entitled session is blocked before any
translation attempt (the outcome does not depend on the second query,
key or service) and the counter stays 1. -/
theorem gate_quota_one_first_then_blocked
    (s : Session) (q q2 k k2 : String) (svc svc2 : GenResult)
    (h0 : s.free_queries_used = 0) (hq : q ≠ "") :
    (handleTranslateClick false s q k svc).2.free_queries_used = 1 ∧
    (handleTranslateClick false s q k svc).1 =
      StepOutcome.translated (translate_sql q k svc).1 (translate_sql q k svc).2 true ∧
    handleTranslateClick false (handleTranslateClick false s q k svc).2 q2 k2 svc2 =
      (StepOutcome.blocked, (handleTranslateClick false s q k svc).2) := by
  have hfirst : handleTranslateClick false s q k svc =
      (StepOutcome.translated (translate_sql q k svc).1 (translate_sql q k svc).2 true,
       { s with free_queries_used := 1 }) := by
    unfold handleTranslateClick chargedSession
    rw [if_neg (by simp [FREE_TIER_MAX_QUERIES, h0]), if_neg hq, if_pos rfl]
    simp [FREE_TIER_MAX_QUERIES, h0]
  refine ⟨by rw [hfirst], by rw [hfirst], ?_⟩
  rw [hfirst]
  unfold handleTranslateClick
  rw [if_pos (by simp [FREE_TIER_MAX_QUERIES])]

/-- C1 witness: a concrete run with a zeroed session and the query
SELECT 1. -/
theorem gate_quota_one_first_then_blocked_witness :
    (handleTranslateClick false initSession "SELECT 1" "key"
        (GenResult.resp "It lists rows.")).2.free_queries_used = 1 ∧
    (handleTranslateClick false initSession "SELECT 1" "key"
        (GenResult.resp "It lists rows.")).1 =
      StepOutcome.translated
        (translate_sql "SELECT 1" "key" (GenResult.resp "It lists rows.")).1
        (translate_sql "SELECT 1" "key" (GenResult.resp "It lists rows.")).2 true ∧
    handleTranslateClick false
        (handleTranslateClick false initSession "SELECT 1" "key"
          (GenResult.resp "It lists rows.")).2 "SELECT 2" "key"
        (GenResult.exc "boom") =
      (StepOutcome.blocked,
       (handleTranslateClick false initSession "SELECT 1" "key"
         (GenResult.resp "It lists rows.")).2) :=
  gate_quota_one_first_then_blocked initSession "SELECT 1" "SELECT 2" "key" "key"
    (GenResult.resp "It lists rows.") (GenResult.exc "boom") rfl (by decide)

/-- C2: the free-query counter starts at 0 and never decreases: a
translate click keeps it or raises it by exactly 1 (the latter only for
a non-entitled session), and neither signing out nor the OAuth callback
changes it. -/
theorem free_queries_used_monotone (isPro : Bool) (s : Session) (q k : String)
    (svc : GenResult) (cid csec ruri code : String) (tr pr : HttpReply) :
    initSession.free_queries_used = 0 ∧
    s.free_queries_used ≤ (handleTranslateClick isPro s q k svc).2.free_queries_used ∧
    ((handleTranslateClick isPro s q k svc).2.free_queries_used = s.free_queries_used ∨
      (isPro = false ∧
        (handleTranslateClick isPro s q k svc).2.free_queries_used =
          s.free_queries_used + 1)) ∧
    (signOut s).free_queries_used = s.free_queries_used ∧
    (handleOAuthCallback cid csec ruri s code tr pr).free_queries_used =
      s.free_queries_used := by
  have hsnd := handleTranslateClick_snd isPro s q k svc
  have hch := chargedSession_free isPro s
  refine ⟨rfl, ?_, ?_, rfl, handleOAuthCallback_free cid csec ruri s code tr pr⟩
  · rcases hsnd with h | h
    · rw [h]
    · rw [h]
      rcases hch with h2 | ⟨_, h2⟩ <;> omega
  · rcases hsnd with h | h <;> rw [h]
    · exact Or.inl rfl
    · rcases hch with h2 | ⟨hp, h2⟩
      · exact Or.inl h2
      · exact Or.inr ⟨hp, h2⟩

/-- C9: the sign-out action clears exactly the cached identity fields
and leaves the free-query counter alone; a later OAuth login on the
signed-out session still leaves the counter where it was. -/
theorem signOut_clears_identity_preserves_quota (s : Session)
    (cid csec ruri code : String) (tr pr : HttpReply) :
    (signOut s).user_email = none ∧
    (signOut s).user_name = none ∧
    (signOut s).free_queries_used = s.free_queries_used ∧
    (handleOAuthCallback cid csec ruri (signOut s) code tr pr).free_queries_used =
      s.free_queries_used := by
  exact ⟨rfl, rfl, rfl, handleOAuthCallback_free cid csec ruri (signOut s) code tr pr⟩

/-- C10: a translate click with the empty query produces no translation
outcome and leaves the session untouched (for any session below quota it
is a no-op; in general it never yields a translated outcome and never
changes the session), while a whitespace-only non-empty query is charged
to the free counter of a non-entitled session and yields the
invalid-input failure message. -/
theorem empty_query_uncharged_whitespace_query_charged
    (isPro : Bool) (s : Session) (k : String) (svc : GenResult) (q : String)
    (hlt : s.free_queries_used < FREE_TIER_MAX_QUERIES)
    (hq : q ≠ "") (hws : pyStrip q = "") :
    handleTranslateClick isPro s "" k svc = (StepOutcome.noAction, s) ∧
    (∀ (p : Bool) (s2 : Session) (r e : Option String) (n : Bool),
      (handleTranslateClick p s2 "" k svc).2 = s2 ∧
      (handleTranslateClick p s2 "" k svc).1 ≠ StepOutcome.translated r e n) ∧
    handleTranslateClick false s q k svc =
      (StepOutcome.translated none (some "Please enter an SQL query.") true,
       { s with free_queries_used := s.free_queries_used + 1 }) := by
  refine ⟨?_, ?_, ?_⟩
  · unfold handleTranslateClick
    rw [if_neg (by rintro ⟨-, h2⟩; omega), if_pos rfl]
  · intro p s2 r e n
    unfold handleTranslateClick
    split
    · exact ⟨rfl, by simp⟩
    · rw [if_pos rfl]
      exact ⟨rfl, by simp⟩
  · unfold handleTranslateClick chargedSession
    rw [if_neg (by rintro ⟨-, h2⟩; omega), if_neg hq, if_pos rfl]
    simp [translate_sql, hws, FREE_TIER_MAX_QUERIES]

/-- C10 witness: a fresh session, the empty query versus a one-space
query. -/
theorem empty_query_uncharged_whitespace_query_charged_witness :
    handleTranslateClick false initSession "" "key" (GenResult.resp "ok") =
      (StepOutcome.noAction, initSession) ∧
    handleTranslateClick false initSession " " "key" (GenResult.resp "ok") =
      (StepOutcome.translated none (some "Please enter an SQL query.") true,
       { initSession with free_queries_used := 1 }) := by
  have h := empty_query_uncharged_whitespace_query_charged false initSession "key"
    (GenResult.resp "ok") " " (by decide) (by decide) (by decide)
  exact ⟨h.1, h.2.2⟩

/-- C3: a query that is blank after stripping yields the invalid-input
failure for every api key and every state of the generation service (so
no network call can influence the result), and a query that is not blank
after stripping combined with a blank api key yields the
missing-credential failure, again for every service state. -/
theorem translate_sql_precondition_failures (q k : String) (svc : GenResult) :
    (pyStrip q = "" →
      translate_sql q k svc = (none, some "Please enter an SQL query.")) ∧
    (pyStrip q ≠ "" → pyStrip k = "" →
      translate_sql q k svc =
        (none, some "Gemini API key is missing. Add GEMINI_API_KEY to your .env file.")) := by
  constructor
  · intro h
    simp [translate_sql, h]
  · intro hq hk
    simp [translate_sql, hq, hk]

/-- C3 witness: a whitespace query with a key, then a real query with a
whitespace key. -/
theorem translate_sql_precondition_failures_witness :
    translate_sql "  " "key" (GenResult.resp "ok") =
      (none, some "Please enter an SQL query.") ∧
    translate_sql "SELECT 1" " " (GenResult.resp "ok") =
      (none, some "Gemini API key is missing. Add GEMINI_API_KEY to your .env file.") :=
  ⟨(translate_sql_precondition_failures "  " "key" (GenResult.resp "ok")).1 (by decide),
   (translate_sql_precondition_failures "SELECT 1" " " (GenResult.resp "ok")).2
     (by decide) (by decide)⟩

/-- C4 counterexample: a whitespace-only service text is truthy in the
guard of the source, so translate_sql returns a success whose payload is
the stripped (hence empty) text instead of the empty-response failure
the claim requires. -/
theorem translate_sql_whitespace_text_success_counterexample :
    translate_sql "SELECT 1" "key" (GenResult.resp " ") = (some "", none) ∧
    translate_sql "SELECT 1" "key" (GenResult.resp " ") ≠
      (none, some "The model returned an empty response.") := by
  constructor
  · decide
  · decide

/-- C4 amended: on valid input, a non-empty service text (whitespace
included) becomes a success carrying the stripped text, and the
empty-response failure arises exactly when the service text is the empty
string. -/
theorem translate_sql_service_text_handling (q k t : String)
    (hq : pyStrip q ≠ "") (hk : pyStrip k ≠ "") :
    (t ≠ "" → translate_sql q k (GenResult.resp t) = (some (pyStrip t), none)) ∧
    (t = "" → translate_sql q k (GenResult.resp t) =
      (none, some "The model returned an empty response.")) := by
  constructor
  · intro ht
    simp [translate_sql, hq, hk, ht]
  · intro ht
    simp [translate_sql, hq, hk, ht]

/-- C4 amended witness: a padded service text and the empty service
text. -/
theorem translate_sql_service_text_handling_witness :
    translate_sql "SELECT 1" "key" (GenResult.resp " ok ") = (some "ok", none) ∧
    translate_sql "SELECT 1" "key" (GenResult.resp "") =
      (none, some "The model returned an empty response.") := by
  constructor
  · have h := (translate_sql_service_text_handling "SELECT 1" "key" " ok "
      (by decide) (by decide)).1 (by decide)
    rw [h]
    decide
  · exact (translate_sql_service_text_handling "SELECT 1" "key" ""
      (by decide) (by decide)).2 rfl

/-- C7: the spec-modelled static-key check is true exactly when the
stripped candidate equals the configured constant, and the three spec
test cases hold for the demo constant. -/
theorem staticKeyIsEntitled_spec (c k : String) :
    (staticKeyIsEntitled c k = true ↔ pyStrip k = c) ∧
    staticKeyIsEntitled DEMO_LICENSE_KEY "DEMO-KEY-2026" = true ∧
    staticKeyIsEntitled DEMO_LICENSE_KEY " DEMO-KEY-2026 " = true ∧
    staticKeyIsEntitled DEMO_LICENSE_KEY "" = false := by
  refine ⟨?_, by decide, by decide, by decide⟩
  simp [staticKeyIsEntitled]

/-- C5: the email-lookup entitlement check is total (a Bool, no raise)
and fail-closed: an empty email, an unconfigured server URL, a transport
error, a non-200 status or a malformed body each force false, and the
check is true exactly when email and URL are non-empty and the server
answered 200 with an object whose valid field is the boolean true. -/
theorem email_has_license_fail_closed (url email : String) (reply : HttpReply) :
    (email = "" → email_has_license url email reply = false) ∧
    (url = "" → email_has_license url email reply = false) ∧
    (reply = HttpReply.failure → email_has_license url email reply = false) ∧
    (∀ st bd, reply = HttpReply.response st bd → st ≠ 200 →
      email_has_license url email reply = false) ∧
    (∀ st, reply = HttpReply.response st JsonBody.malformed →
      email_has_license url email reply = false) ∧
    (email_has_license url email reply = true ↔
      email ≠ "" ∧ url ≠ "" ∧
      ∃ fields, reply = HttpReply.response 200 (JsonBody.obj fields) ∧
        getField fields "valid" = some (JVal.jbool true)) := by
  refine ⟨?_, ?_, ?_, ?_, ?_, ?_⟩
  · intro h
    simp [email_has_license, h]
  · intro h
    simp [email_has_license, h]
  · intro h
    subst h
    simp [email_has_license]
  · intro st bd h hst
    subst h
    simp [email_has_license, hst]
  · intro st h
    subst h
    simp [email_has_license]
  · constructor
    · intro h
      rcases reply with - | ⟨st, bd⟩
      · simp [email_has_license] at h
      · rcases bd with - | fields
        · simp [email_has_license] at h
        · simp only [email_has_license] at h
          by_cases h1 : email = "" ∨ url = ""
          · rw [if_pos h1] at h
            exact absurd h (by simp)
          · rw [if_neg h1] at h
            by_cases hst : st ≠ 200
            · rw [if_pos hst] at h
              exact absurd h (by simp)
            · rw [if_neg hst] at h
              push_neg at h1
              push_neg at hst
              subst hst
              exact ⟨h1.1, h1.2, fields, rfl, by simpa using h⟩
    · rintro ⟨he, hu, fields, rfl, hv⟩
      simp [email_has_license, he, hu, hv]

/-- C5 witness: each fail-closed branch at a concrete input, and one
concrete entitled response. -/
theorem email_has_license_fail_closed_witness :
    email_has_license "http://ls" "" HttpReply.failure = false ∧
    email_has_license "" "a@b.c" HttpReply.failure = false ∧
    email_has_license "http://ls" "a@b.c" HttpReply.failure = false ∧
    email_has_license "http://ls" "a@b.c"
      (HttpReply.response 503 (JsonBody.obj [])) = false ∧
    email_has_license "http://ls" "a@b.c"
      (HttpReply.response 200 JsonBody.malformed) = false ∧
    email_has_license "http://ls" "a@b.c"
      (HttpReply.response 200 (JsonBody.obj [("valid", JVal.jbool true)])) = true := by
  refine ⟨?_, ?_, ?_, ?_, ?_, ?_⟩
  · exact (email_has_license_fail_closed "http://ls" "" HttpReply.failure).1 rfl
  · exact (email_has_license_fail_closed "" "a@b.c" HttpReply.failure).2.1 rfl
  · exact (email_has_license_fail_closed "http://ls" "a@b.c" HttpReply.failure).2.2.1 rfl
  · exact (email_has_license_fail_closed "http://ls" "a@b.c"
      (HttpReply.response 503 (JsonBody.obj []))).2.2.2.1 503 (JsonBody.obj []) rfl
      (by decide)
  · exact (email_has_license_fail_closed "http://ls" "a@b.c"
      (HttpReply.response 200 JsonBody.malformed)).2.2.2.2.1 200 rfl
  · exact (email_has_license_fail_closed "http://ls" "a@b.c"
      (HttpReply.response 200 (JsonBody.obj [("valid", JVal.jbool true)]))).2.2.2.2.2.mpr
      ⟨by decide, by decide, [("valid", JVal.jbool true)], rfl, by decide⟩

/-- C6: the upgrade-URL computation is total (always a string) and falls
back to the static Razorpay URL on a missing email, an unconfigured
server, a transport error or timeout, a non-200 status, a malformed
body, a missing url field, or a blank url string; when the server
answers 200 with a non-blank url string and both email and server URL
are present, it returns that stripped url. -/
theorem resolveUpgradeUrl_total_fallback (staticUrl serverUrl : String)
    (userEmail : Option String) (reply : HttpReply) :
    (userEmail = none →
      resolveUpgradeUrl staticUrl serverUrl userEmail reply = staticUrl) ∧
    (serverUrl = "" →
      resolveUpgradeUrl staticUrl serverUrl userEmail reply = staticUrl) ∧
    (reply = HttpReply.failure →
      resolveUpgradeUrl staticUrl serverUrl userEmail reply = staticUrl) ∧
    (∀ st bd, reply = HttpReply.response st bd → st ≠ 200 →
      resolveUpgradeUrl staticUrl serverUrl userEmail reply = staticUrl) ∧
    (∀ st, reply = HttpReply.response st JsonBody.malformed →
      resolveUpgradeUrl staticUrl serverUrl userEmail reply = staticUrl) ∧
    (∀ fields, reply = HttpReply.response 200 (JsonBody.obj fields) →
      getField fields "url" = none →
      resolveUpgradeUrl staticUrl serverUrl userEmail reply = staticUrl) ∧
    (∀ fields u, reply = HttpReply.response 200 (JsonBody.obj fields) →
      getField fields "url" = some (JVal.jstr u) → pyStrip u = "" →
      resolveUpgradeUrl staticUrl serverUrl userEmail reply = staticUrl) ∧
    (∀ e fields u, userEmail = some e → e ≠ "" → serverUrl ≠ "" →
      reply = HttpReply.response 200 (JsonBody.obj fields) →
      getField fields "url" = some (JVal.jstr u) → pyStrip u ≠ "" →
      resolveUpgradeUrl staticUrl serverUrl userEmail reply = pyStrip u) := by
  refine ⟨?_, ?_, ?_, ?_, ?_, ?_, ?_, ?_⟩
  · intro h
    subst h
    simp [resolveUpgradeUrl]
  · intro h
    simp [resolveUpgradeUrl, h]
  · intro h
    subst h
    simp [resolveUpgradeUrl, get_payment_link_for_email]
  · intro st bd h hst
    subst h
    simp [resolveUpgradeUrl, get_payment_link_for_email, hst]
  · intro st h
    subst h
    simp [resolveUpgradeUrl, get_payment_link_for_email]
  · intro fields h hf
    subst h
    simp [resolveUpgradeUrl, get_payment_link_for_email, hf]
  · intro fields u h hf hu
    subst h
    simp [resolveUpgradeUrl, get_payment_link_for_email, hf, hu]
  · intro e fields u he hne hsrv h hf hu
    subst h
    subst he
    simp [resolveUpgradeUrl, get_payment_link_for_email, hne, hsrv, hf, hu]

/-- C6 witness: the static fallback on a transport failure and the
server URL on a good response, at concrete inputs. -/
theorem resolveUpgradeUrl_total_fallback_witness :
    resolveUpgradeUrl "https://static.pay" "http://ls" (some "a@b.c")
      HttpReply.failure = "https://static.pay" ∧
    resolveUpgradeUrl "https://static.pay" "" (some "a@b.c")
      HttpReply.failure = "https://static.pay" ∧
    resolveUpgradeUrl "https://static.pay" "http://ls" none
      HttpReply.failure = "https://static.pay" ∧
    resolveUpgradeUrl "https://static.pay" "http://ls" (some "a@b.c")
      (HttpReply.response 200 (JsonBody.obj [("url", JVal.jstr " http://pay ")])) =
      "http://pay" := by
  refine ⟨?_, ?_, ?_, ?_⟩
  · exact (resolveUpgradeUrl_total_fallback "https://static.pay" "http://ls"
      (some "a@b.c") HttpReply.failure).2.2.1 rfl
  · exact (resolveUpgradeUrl_total_fallback "https://static.pay" ""
      (some "a@b.c") HttpReply.failure).2.1 rfl
  · exact (resolveUpgradeUrl_total_fallback "https://static.pay" "http://ls"
      none HttpReply.failure).1 rfl
  · have h := (resolveUpgradeUrl_total_fallback "https://static.pay" "http://ls"
      (some "a@b.c")
      (HttpReply.response 200 (JsonBody.obj [("url", JVal.jstr " http://pay ")]))).2.2.2.2.2.2.2
      "a@b.c" [("url", JVal.jstr " http://pay ")] " http://pay " rfl (by decide)
      (by decide) rfl (by decide) (by decide)
    rw [h]
    decide

/-- C8: the code exchange yields no identity when the token call fails
or returns a non-200 status or no access token, and when the profile
call fails or returns a non-200 status; a 200 profile without an email
field yields no email; and when the exchange succeeds with an email but
no name, the callback caches that email as both the session email and
the displayed name. -/
theorem exchange_code_failures_and_name_fallback
    (cid csec ruri : String) (tr pr : HttpReply) (s : Session) (code : String) :
    (tr = HttpReply.failure →
      exchange_code_for_user cid csec ruri tr pr = (none, none)) ∧
    (∀ st bd, tr = HttpReply.response st bd → st ≠ 200 →
      exchange_code_for_user cid csec ruri tr pr = (none, none)) ∧
    (∀ tf, tr = HttpReply.response 200 (JsonBody.obj tf) →
      getField tf "access_token" = none →
      exchange_code_for_user cid csec ruri tr pr = (none, none)) ∧
    (pr = HttpReply.failure →
      exchange_code_for_user cid csec ruri tr pr = (none, none)) ∧
    (∀ st bd, pr = HttpReply.response st bd → st ≠ 200 →
      exchange_code_for_user cid csec ruri tr pr = (none, none)) ∧
    (∀ pf, pr = HttpReply.response 200 (JsonBody.obj pf) →
      getField pf "email" = none →
      (exchange_code_for_user cid csec ruri tr pr).1 = none) ∧
    (∀ e, exchange_code_for_user cid csec ruri tr pr = (some e, none) →
      code ≠ "" → s.user_email = none →
      (handleOAuthCallback cid csec ruri s code tr pr).user_email = some e ∧
      (handleOAuthCallback cid csec ruri s code tr pr).user_name = some e) := by
  refine ⟨?_, ?_, ?_, ?_, ?_, ?_, ?_⟩
  · intro h
    subst h
    simp [exchange_code_for_user]
  · intro st bd h hst
    subst h
    simp [exchange_code_for_user, hst]
  · intro tf h hf
    subst h
    simp [exchange_code_for_user, hf, jTruthy]
  · intro h
    subst h
    unfold exchange_code_for_user
    repeat' split
    all_goals try rfl
    all_goals simp_all
  · intro st bd h hst
    subst h
    unfold exchange_code_for_user
    repeat' split
    all_goals try rfl
    all_goals simp_all
  · intro pf h hf
    subst h
    unfold exchange_code_for_user
    repeat' split
    all_goals try rfl
    all_goals simp_all [pyStrFieldOrNone]
  · intro e hx hcode hmail
    have hcid : cid ≠ "" := by
      intro hc
      unfold exchange_code_for_user at hx
      rw [if_pos (Or.inl hc)] at hx
      simp at hx
    have hruri : ruri ≠ "" := by
      intro hc
      unfold exchange_code_for_user at hx
      rw [if_pos (Or.inr (Or.inr hc))] at hx
      simp at hx
    have hne : e ≠ "" :=
      exchange_fst_some_ne_empty cid csec ruri tr pr e (by rw [hx])
    have hcb : handleOAuthCallback cid csec ruri s code tr pr =
        { s with user_email := some e, user_name := some e } := by
      unfold handleOAuthCallback
      rw [if_pos ⟨hcode, by simp [optStrFalsy, hmail], hcid, hruri⟩, hx]
      dsimp only
      rw [if_neg hne]
    rw [hcb]
    exact ⟨rfl, rfl⟩

/-- C8 witness: each failure path at a concrete input, plus a concrete
successful exchange whose profile has an email and no name, cached as
both identity fields. -/
theorem exchange_code_failures_and_name_fallback_witness :
    exchange_code_for_user "cid" "sec" "http://r"
      HttpReply.failure HttpReply.failure = (none, none) ∧
    exchange_code_for_user "cid" "sec" "http://r"
      (HttpReply.response 500 JsonBody.malformed) HttpReply.failure = (none, none) ∧
    exchange_code_for_user "cid" "sec" "http://r"
      (HttpReply.response 200 (JsonBody.obj [])) HttpReply.failure = (none, none) ∧
    exchange_code_for_user "cid" "sec" "http://r"
      (HttpReply.response 200 (JsonBody.obj [("access_token", JVal.jstr "tok")]))
      HttpReply.failure = (none, none) ∧
    exchange_code_for_user "cid" "sec" "http://r"
      (HttpReply.response 200 (JsonBody.obj [("access_token", JVal.jstr "tok")]))
      (HttpReply.response 404 (JsonBody.obj [])) = (none, none) ∧
    (exchange_code_for_user "cid" "sec" "http://r"
      (HttpReply.response 200 (JsonBody.obj [("access_token", JVal.jstr "tok")]))
      (HttpReply.response 200 (JsonBody.obj []))).1 = none ∧
    ((handleOAuthCallback "cid" "sec" "http://r" initSession "authcode"
        (HttpReply.response 200 (JsonBody.obj [("access_token", JVal.jstr "tok")]))
        (HttpReply.response 200 (JsonBody.obj [("email", JVal.jstr " a@b.c ")]))).user_email =
      some "a@b.c" ∧
     (handleOAuthCallback "cid" "sec" "http://r" initSession "authcode"
        (HttpReply.response 200 (JsonBody.obj [("access_token", JVal.jstr "tok")]))
        (HttpReply.response 200 (JsonBody.obj [("email", JVal.jstr " a@b.c ")]))).user_name =
      some "a@b.c") := by
  refine ⟨?_, ?_, ?_, ?_, ?_, ?_, ?_⟩
  · exact (exchange_code_failures_and_name_fallback "cid" "sec" "http://r"
      HttpReply.failure HttpReply.failure initSession "authcode").1 rfl
  · exact (exchange_code_failures_and_name_fallback "cid" "sec" "http://r"
      (HttpReply.response 500 JsonBody.malformed) HttpReply.failure initSession
      "authcode").2.1 500 JsonBody.malformed rfl (by decide)
  · exact (exchange_code_failures_and_name_fallback "cid" "sec" "http://r"
      (HttpReply.response 200 (JsonBody.obj [])) HttpReply.failure initSession
      "authcode").2.2.1 [] rfl rfl
  · exact (exchange_code_failures_and_name_fallback "cid" "sec" "http://r"
      (HttpReply.response 200 (JsonBody.obj [("access_token", JVal.jstr "tok")]))
      HttpReply.failure initSession "authcode").2.2.2.1 rfl
  · exact (exchange_code_failures_and_name_fallback "cid" "sec" "http://r"
      (HttpReply.response 200 (JsonBody.obj [("access_token", JVal.jstr "tok")]))
      (HttpReply.response 404 (JsonBody.obj [])) initSession "authcode").2.2.2.2.1
      404 (JsonBody.obj []) rfl (by decide)
  · exact (exchange_code_failures_and_name_fallback "cid" "sec" "http://r"
      (HttpReply.response 200 (JsonBody.obj [("access_token", JVal.jstr "tok")]))
      (HttpReply.response 200 (JsonBody.obj [])) initSession "authcode").2.2.2.2.2.1
      [] rfl rfl
  · exact (exchange_code_failures_and_name_fallback "cid" "sec" "http://r"
      (HttpReply.response 200 (JsonBody.obj [("access_token", JVal.jstr "tok")]))
      (HttpReply.response 200 (JsonBody.obj [("email", JVal.jstr " a@b.c ")]))
      initSession "authcode").2.2.2.2.2.2 "a@b.c" (by decide) (by decide) rfl

end SqlHumanizer
